import Mathlib

/-!
Shallow embedding of the donor lifecycle classification and churn-risk
scoring engine of `new_analytics.py` (the "ADVANCED ANALYTICS - D3" section),
together with proofs about it.

Modelling conventions:
* Python `int` values (donation counts, day counts) are `Int`.
* Python `float` monetary and interval values are exact rationals `ℚ`;
  `round(x, n)` is round-half-to-even on the exact rational (`pyRound`).
* Timestamps are integer day numbers; `(a - b).days` becomes integer
  subtraction.  The year of a donation is carried separately where the
  cohort analysis needs it.
* The human-readable risk-factor strings of the source are a tagged
  variant `RiskFactor`, one constructor per f-string, carrying the
  interpolated day count; `renderRiskFactor` reproduces the exact text.
-/

/-- Lifecycle stages, mirroring `LifecycleStageEnum` of the source
(`prospect, first_time, repeat, major, lapsed, lost`); `repeat` is spelled
`repeat_` because `repeat` is reserved in Lean. -/
inductive LifecycleStageEnum where
  | prospect
  | first_time
  | repeat_
  | major
  | lapsed
  | lost
deriving DecidableEq, Repr

/-- Churn risk tiers, mirroring `ChurnRisk` of the source. -/
inductive ChurnRisk where
  | low
  | medium
  | high
  | critical
deriving DecidableEq, Repr

/-- The ordinal used by the source in both filtering and sorting:
`risk_order = {LOW: 1, MEDIUM: 2, HIGH: 3, CRITICAL: 4}`. -/
def riskOrder : ChurnRisk → Int
  | .low => 1
  | .medium => 2
  | .high => 3
  | .critical => 4

/-- Tagged model of the risk-factor strings appended by
`calculate_churn_risk_advanced`; each constructor corresponds to one
`risk_factors.append(...)` call in the source, carrying the day count the
f-string interpolates. -/
inductive RiskFactor where
  | noDonation12Months (days : Int)
  | noDonation6Months (days : Int)
  | noDonation3Months (days : Int)
  | overduePattern
  | limitedHistory
  | highValueInactive
deriving DecidableEq, Repr

/-- Exact text of each risk factor as built by the source's f-strings. -/
def renderRiskFactor : RiskFactor → String
  | .noDonation12Months days => "No donation in " ++ toString days ++ " days (12+ months)"
  | .noDonation6Months days => "No donation in " ++ toString days ++ " days (6+ months)"
  | .noDonation3Months days => "No donation in " ++ toString days ++ " days (3+ months)"
  | .overduePattern => "Overdue based on donation pattern"
  | .limitedHistory => "Limited giving history (< 3 donations)"
  | .highValueInactive => "High-value donor showing inactivity"

/-- Embedding of `calculate_lifecycle_stage_advanced(donation_count,
last_donation_date, lifetime_value, days_since_last)`.  The
`last_donation_date` parameter is kept (as an optional day number) exactly
because the source declares it, although its body never reads it. -/
def calculate_lifecycle_stage_advanced (donation_count : Int)
    (last_donation_date : Option Int) (lifetime_value : ℚ)
    (days_since_last : Int) : LifecycleStageEnum :=
  if donation_count = 0 then
    .prospect
  else if donation_count = 1 then
    if days_since_last > 365 then .lost else .first_time
  else if days_since_last ≥ 365 then
    if days_since_last ≥ 730 then .lost else .lapsed
  else if lifetime_value ≥ 5000 then
    .major
  else
    .repeat_

/-- The score/factor accumulation of `calculate_churn_risk_advanced`:
the four sequential `if` blocks of the source, threading
`(risk_factors, risk_score)` in order.  Returns the pair after the last
block. -/
def churn_risk_accumulate (days_since_last : Int) (donation_count : Int)
    (avg_donation_frequency : ℚ) (lifetime_value : ℚ) :
    List RiskFactor × Int :=
  let acc : List RiskFactor × Int := ([], 0)
  let acc :=
    if days_since_last ≥ 365 then
      (acc.1 ++ [.noDonation12Months days_since_last], acc.2 + 40)
    else if days_since_last ≥ 180 then
      (acc.1 ++ [.noDonation6Months days_since_last], acc.2 + 20)
    else if days_since_last ≥ 90 then
      (acc.1 ++ [.noDonation3Months days_since_last], acc.2 + 10)
    else acc
  let acc :=
    if avg_donation_frequency > 0 then
      if (days_since_last : ℚ) > avg_donation_frequency * 1.5 then
        (acc.1 ++ [.overduePattern], acc.2 + 25)
      else acc
    else acc
  let acc :=
    if donation_count < 3 then
      (acc.1 ++ [.limitedHistory], acc.2 + 15)
    else acc
  let acc :=
    if lifetime_value ≥ 5000 ∧ days_since_last ≥ 180 then
      (acc.1 ++ [.highValueInactive], acc.2 + 20)
    else acc
  acc

/-- The tier mapping at the end of `calculate_churn_risk_advanced`. -/
def churn_risk_tier (risk_score : Int) : ChurnRisk :=
  if risk_score ≥ 70 then .critical
  else if risk_score ≥ 50 then .high
  else if risk_score ≥ 30 then .medium
  else .low

/-- Embedding of `calculate_churn_risk_advanced(days_since_last,
donation_count, avg_donation_frequency, lifetime_value)`: accumulates the
score and factors, then returns `(tier, risk_factors)` as the source does. -/
def calculate_churn_risk_advanced (days_since_last : Int) (donation_count : Int)
    (avg_donation_frequency : ℚ) (lifetime_value : ℚ) :
    ChurnRisk × List RiskFactor :=
  let acc := churn_risk_accumulate days_since_last donation_count
    avg_donation_frequency lifetime_value
  (churn_risk_tier acc.2, acc.1)

/-- Modelled from the spec's six ordered first-match rules for the
lifecycle stage classifier (spec section 4.2), written exactly in the
spec's rule order; used only to compare against the source embedding. -/
def lifecycleStageSpec (donation_count : Int) (lifetime_value : ℚ)
    (days_since_last : Int) : LifecycleStageEnum :=
  if donation_count = 0 then .prospect
  else if donation_count = 1 then
    (if days_since_last > 365 then .lost else .first_time)
  else if days_since_last ≥ 730 then .lost
  else if days_since_last ≥ 365 then .lapsed
  else if lifetime_value ≥ 5000 then .major
  else .repeat_

/-- C1: the lifecycle stage classifier, applied to any donor aggregate,
returns exactly the stage given by the spec's ordered first-match rules
(`donation_count == 0` → prospect; else `donation_count == 1` → lost when
`days > 365` else first_time; else `days ≥ 730` → lost; else `days ≥ 365`
→ lapsed; else `lifetime_value ≥ 5000` → major; else repeat). -/
theorem lifecycle_stage_matches_spec_rules (donation_count : Int)
    (last_donation_date : Option Int) (lifetime_value : ℚ)
    (days_since_last : Int) :
    calculate_lifecycle_stage_advanced donation_count last_donation_date
      lifetime_value days_since_last =
      lifecycleStageSpec donation_count lifetime_value days_since_last := by
  unfold calculate_lifecycle_stage_advanced lifecycleStageSpec
  split_ifs <;> first | rfl | omega

/-- C10: the classifier ignores its `last_donation_date` argument: two
calls agreeing on the other three arguments return the same stage. -/
theorem lifecycle_stage_ignores_last_donation_date (donation_count : Int)
    (d₁ d₂ : Option Int) (lifetime_value : ℚ) (days_since_last : Int) :
    calculate_lifecycle_stage_advanced donation_count d₁ lifetime_value
        days_since_last =
      calculate_lifecycle_stage_advanced donation_count d₂ lifetime_value
        days_since_last := rfl

/-- C3 as stated is false: a donor aggregate with
`days_since_last_donation = 730` but `donation_count = 0` is classified
`prospect`, not `lost` — the `donation_count == 0` check precedes the
recency checks. -/
theorem lifecycle_stage_730_not_always_lost :
    calculate_lifecycle_stage_advanced 0 none 0 730 =
        LifecycleStageEnum.prospect ∧
      calculate_lifecycle_stage_advanced 0 none 0 730 ≠
        LifecycleStageEnum.lost := by
  constructor <;> decide

/-- C3 (amended): for every donor aggregate with
`days_since_last_donation ≥ 730`, the classifier never returns `lapsed`,
and whenever `donation_count ≠ 0` it returns exactly `lost`; with
`donation_count = 0` it returns `prospect`. -/
theorem lifecycle_stage_730_lost_amended (donation_count : Int)
    (last_donation_date : Option Int) (lifetime_value : ℚ)
    (days_since_last : Int) (h : days_since_last ≥ 730) :
    calculate_lifecycle_stage_advanced donation_count last_donation_date
        lifetime_value days_since_last ≠ LifecycleStageEnum.lapsed ∧
      (donation_count ≠ 0 →
        calculate_lifecycle_stage_advanced donation_count last_donation_date
          lifetime_value days_since_last = LifecycleStageEnum.lost) ∧
      (donation_count = 0 →
        calculate_lifecycle_stage_advanced donation_count last_donation_date
          lifetime_value days_since_last = LifecycleStageEnum.prospect) := by
  unfold calculate_lifecycle_stage_advanced
  split_ifs <;> refine ⟨?_, ?_, ?_⟩ <;> intro <;> first | rfl | omega | simp_all

/-- Witness for the amended C3 at a concrete aggregate. -/
theorem lifecycle_stage_730_lost_amended_witness :
    calculate_lifecycle_stage_advanced 5 (some 0) 9999 800 ≠
        LifecycleStageEnum.lapsed ∧
      calculate_lifecycle_stage_advanced 5 (some 0) 9999 800 =
        LifecycleStageEnum.lost := by
  have h := lifecycle_stage_730_lost_amended 5 (some 0) 9999 800 (by decide)
  exact ⟨h.1, h.2.1 (by decide)⟩

/-- Modelled from the spec's churn-score table (section 4.3): one addend
per row, each row's condition written independently as in the table. -/
def churnScoreSpec (days_since_last : Int) (donation_count : Int)
    (avg_donation_frequency : ℚ) (lifetime_value : ℚ) : Int :=
  (if days_since_last ≥ 365 then 40 else 0) +
  (if 180 ≤ days_since_last ∧ days_since_last < 365 then 20 else 0) +
  (if 90 ≤ days_since_last ∧ days_since_last < 180 then 10 else 0) +
  (if avg_donation_frequency > 0 ∧
      (days_since_last : ℚ) > avg_donation_frequency * 1.5 then 25 else 0) +
  (if donation_count < 3 then 15 else 0) +
  (if lifetime_value ≥ 5000 ∧ days_since_last ≥ 180 then 20 else 0)

/-- Modelled from the spec's churn-score table: the factor appended by
each triggered row, concatenated in table order. -/
def churnFactorsSpec (days_since_last : Int) (donation_count : Int)
    (avg_donation_frequency : ℚ) (lifetime_value : ℚ) : List RiskFactor :=
  (if days_since_last ≥ 365 then [.noDonation12Months days_since_last] else []) ++
  (if 180 ≤ days_since_last ∧ days_since_last < 365 then
    [.noDonation6Months days_since_last] else []) ++
  (if 90 ≤ days_since_last ∧ days_since_last < 180 then
    [.noDonation3Months days_since_last] else []) ++
  (if avg_donation_frequency > 0 ∧
      (days_since_last : ℚ) > avg_donation_frequency * 1.5 then
    [.overduePattern] else []) ++
  (if donation_count < 3 then [.limitedHistory] else []) ++
  (if lifetime_value ≥ 5000 ∧ days_since_last ≥ 180 then
    [.highValueInactive] else [])

/-- Modelled from the spec's tier mapping: `>=70 → critical`,
`>=50 → high`, `>=30 → medium`, else `low`. -/
def churnTierSpec (score : Int) : ChurnRisk :=
  if score ≥ 70 then .critical
  else if score ≥ 50 then .high
  else if score ≥ 30 then .medium
  else .low

set_option maxHeartbeats 1000000 in
theorem churn_risk_accumulate_eq (days_since_last : Int) (donation_count : Int)
    (avg_donation_frequency : ℚ) (lifetime_value : ℚ) :
    churn_risk_accumulate days_since_last donation_count
        avg_donation_frequency lifetime_value =
      (churnFactorsSpec days_since_last donation_count
          avg_donation_frequency lifetime_value,
        churnScoreSpec days_since_last donation_count
          avg_donation_frequency lifetime_value) := by
  simp only [churn_risk_accumulate, churnFactorsSpec, churnScoreSpec]
  by_cases h4 : avg_donation_frequency > 0 <;>
    by_cases h5 : (days_since_last : ℚ) > avg_donation_frequency * 1.5 <;>
      by_cases h6 : donation_count < 3 <;>
        by_cases h7 : lifetime_value ≥ 5000 <;>
          simp only [h4, h5, h6, h7, if_true, if_false, and_true, and_false,
            true_and, false_and, if_pos, iff_true, iff_false, not_lt, not_le] <;>
        split_ifs <;> simp_all <;> omega

theorem churn_accumulate_score_eq (days_since_last : Int) (donation_count : Int)
    (avg_donation_frequency : ℚ) (lifetime_value : ℚ) :
    (churn_risk_accumulate days_since_last donation_count
        avg_donation_frequency lifetime_value).2 =
      churnScoreSpec days_since_last donation_count
        avg_donation_frequency lifetime_value := by
  rw [churn_risk_accumulate_eq]

theorem churn_accumulate_factors_eq (days_since_last : Int) (donation_count : Int)
    (avg_donation_frequency : ℚ) (lifetime_value : ℚ) :
    (churn_risk_accumulate days_since_last donation_count
        avg_donation_frequency lifetime_value).1 =
      churnFactorsSpec days_since_last donation_count
        avg_donation_frequency lifetime_value := by
  rw [churn_risk_accumulate_eq]

/-- C2: the churn risk scorer computes a score equal to the sum of the
weights of exactly the triggered rules of the spec's table, appends one
factor per triggered rule in table order, and returns the tier given by
`score ≥ 70 → critical, ≥ 50 → high, ≥ 30 → medium, else low` (the factor
strings are modelled by the `RiskFactor` tags). -/
theorem churn_risk_matches_spec_table (days_since_last : Int)
    (donation_count : Int) (avg_donation_frequency : ℚ) (lifetime_value : ℚ) :
    (churn_risk_accumulate days_since_last donation_count
        avg_donation_frequency lifetime_value).2 =
      churnScoreSpec days_since_last donation_count
        avg_donation_frequency lifetime_value ∧
    calculate_churn_risk_advanced days_since_last donation_count
        avg_donation_frequency lifetime_value =
      (churnTierSpec (churnScoreSpec days_since_last donation_count
          avg_donation_frequency lifetime_value),
        churnFactorsSpec days_since_last donation_count
          avg_donation_frequency lifetime_value) := by
  refine ⟨churn_accumulate_score_eq .., ?_⟩
  simp only [calculate_churn_risk_advanced, churn_risk_tier, churnTierSpec,
    churn_accumulate_score_eq, churn_accumulate_factors_eq]

/-- C4: holding the other inputs fixed, the churn risk score is
monotonically non-decreasing in `days_since_last_donation`. -/
theorem churn_score_monotone_in_days (donation_count : Int)
    (avg_donation_frequency : ℚ) (lifetime_value : ℚ) (d d' : Int)
    (h : d ≤ d') :
    (churn_risk_accumulate d donation_count
        avg_donation_frequency lifetime_value).2 ≤
      (churn_risk_accumulate d' donation_count
        avg_donation_frequency lifetime_value).2 := by
  rw [churn_accumulate_score_eq, churn_accumulate_score_eq]
  have hq : (d : ℚ) ≤ (d' : ℚ) := by exact_mod_cast h
  unfold churnScoreSpec
  have h1 :
      (if d ≥ 365 then (40 : Int) else 0) +
          (if 180 ≤ d ∧ d < 365 then 20 else 0) +
          (if 90 ≤ d ∧ d < 90 + 90 then 10 else 0) ≤
        (if d' ≥ 365 then (40 : Int) else 0) +
          (if 180 ≤ d' ∧ d' < 365 then 20 else 0) +
          (if 90 ≤ d' ∧ d' < 90 + 90 then 10 else 0) := by
    split_ifs <;> omega
  have h2 :
      (if avg_donation_frequency > 0 ∧
          (d : ℚ) > avg_donation_frequency * 1.5 then (25 : Int) else 0) ≤
        (if avg_donation_frequency > 0 ∧
          (d' : ℚ) > avg_donation_frequency * 1.5 then (25 : Int) else 0) := by
    split_ifs with hA hB
    · omega
    · exact absurd ⟨hA.1, lt_of_lt_of_le hA.2 hq⟩ hB
    all_goals omega
  have h4 :
      (if lifetime_value ≥ 5000 ∧ d ≥ 180 then (20 : Int) else 0) ≤
        (if lifetime_value ≥ 5000 ∧ d' ≥ 180 then (20 : Int) else 0) := by
    split_ifs with hA hB
    · omega
    · exact absurd ⟨hA.1, by omega⟩ hB
    all_goals omega
  omega

/-- Witness for C4 across the 89→90 band boundary. -/
theorem churn_score_monotone_in_days_witness :
    (churn_risk_accumulate 89 2 10 6000).2 ≤
      (churn_risk_accumulate 90 2 10 6000).2 :=
  churn_score_monotone_in_days 2 10 6000 89 90 (by decide)

/-- Inactivity-band factors are the ones produced by the three
mutually exclusive recency rules. -/
def isInactivityBandFactor : RiskFactor → Bool
  | .noDonation12Months _ => true
  | .noDonation6Months _ => true
  | .noDonation3Months _ => true
  | .overduePattern => false
  | .limitedHistory => false
  | .highValueInactive => false

/-- C9: the churn risk score never exceeds 100, the risk-factor list has
at most 4 entries, and at most one of them is an inactivity-band factor. -/
theorem churn_risk_bounds (days_since_last : Int) (donation_count : Int)
    (avg_donation_frequency : ℚ) (lifetime_value : ℚ) :
    (churn_risk_accumulate days_since_last donation_count
        avg_donation_frequency lifetime_value).2 ≤ 100 ∧
    (churn_risk_accumulate days_since_last donation_count
        avg_donation_frequency lifetime_value).1.length ≤ 4 ∧
    ((churn_risk_accumulate days_since_last donation_count
        avg_donation_frequency lifetime_value).1.countP
          isInactivityBandFactor) ≤ 1 := by
  rw [churn_accumulate_score_eq, churn_accumulate_factors_eq]
  refine ⟨?_, ?_, ?_⟩
  · unfold churnScoreSpec
    split_ifs <;> omega
  · unfold churnFactorsSpec
    simp only [List.length_append, apply_ite List.length, List.length_singleton,
      List.length_nil]
    split_ifs <;> omega
  · unfold churnFactorsSpec
    simp only [List.countP_append, apply_ite (List.countP isInactivityBandFactor),
      List.countP_nil, List.countP_cons, isInactivityBandFactor,
      if_true, Bool.false_eq_true, if_false, Nat.zero_add]
    split_ifs <;> omega

/-- Embedding of `get_recommended_action_advanced(risk_level, stage)`: the
sparse lookup table with the generic fallback. -/
def get_recommended_action_advanced (risk_level : ChurnRisk)
    (stage : LifecycleStageEnum) : String :=
  match risk_level, stage with
  | .critical, .major => "URGENT: Personal call from Executive Director within 48 hours"
  | .critical, .repeat_ => "High-touch re-engagement campaign, offer exclusive event invite"
  | .high, .major => "Schedule coffee meeting, share insider updates"
  | .high, .repeat_ => "Multi-channel re-engagement, highlight recent impact"
  | .medium, .repeat_ => "Include in next newsletter, light touch"
  | _, _ => "Standard stewardship communication"

/-- One row of the `donor_stats` query of `get_donor_lifecycle_analytics`:
per-donor aggregates (`COUNT`, `MAX(received_date)`, `SUM(intent_amount)`,
`MIN(received_date)`).  Timestamps are day numbers; the SQL `SUM` is
`NULL` for donation-less donors, hence the optional lifetime value. -/
structure DonorStat where
  donor_id : Nat
  donation_count : Int
  last_donation_date : Option Int
  lifetime_value : Option ℚ
  first_donation_date : Option Int
deriving DecidableEq, Repr

/-- The loop's `days_since_last`: `(current_date - last).days` when a last
donation exists, else the sentinel `999999`. -/
def days_since_last_of (current_date : Int) (s : DonorStat) : Int :=
  match s.last_donation_date with
  | some dt => current_date - dt
  | none => 999999

/-- The loop's `avg_frequency`: the source guards on `donation_count > 1`
and both dates being non-`None`, then divides the date span by
`donation_count - 1` (with a redundant inner `donation_count > 1`
conditional, kept here). -/
def avg_frequency_of (s : DonorStat) : ℚ :=
  if s.donation_count > 1 ∧ s.first_donation_date.isSome ∧
      s.last_donation_date.isSome then
    if s.donation_count > 1 then
      ((s.last_donation_date.getD 0 - s.first_donation_date.getD 0 : Int) : ℚ) /
        ((s.donation_count - 1 : Int) : ℚ)
    else 0
  else 0

/-- Stage assigned to a donor row in the loop (`lifetime_value or 0`). -/
def stage_of (current_date : Int) (s : DonorStat) : LifecycleStageEnum :=
  calculate_lifecycle_stage_advanced s.donation_count s.last_donation_date
    (s.lifetime_value.getD 0) (days_since_last_of current_date s)

/-- Churn risk assigned to a donor row in the loop. -/
def risk_of (current_date : Int) (s : DonorStat) : ChurnRisk × List RiskFactor :=
  calculate_churn_risk_advanced (days_since_last_of current_date s)
    s.donation_count (avg_frequency_of s) (s.lifetime_value.getD 0)

/-- The `DonorChurnRisk` record the loop appends to `at_risk_donors`
(donor name and email, which come from extra queries, are omitted). -/
structure DonorChurnRisk where
  donor_id : Nat
  last_donation_date : Option Int
  days_since_last_donation : Int
  total_donations : Int
  lifetime_value : ℚ
  current_stage : LifecycleStageEnum
  risk_level : ChurnRisk
  risk_factors : List RiskFactor
  recommended_action : String
deriving DecidableEq, Repr

/-- Construction of the `DonorChurnRisk` entry for one donor row. -/
def mk_churn_entry (current_date : Int) (s : DonorStat) : DonorChurnRisk :=
  { donor_id := s.donor_id
    last_donation_date := s.last_donation_date
    days_since_last_donation := days_since_last_of current_date s
    total_donations := s.donation_count
    lifetime_value := s.lifetime_value.getD 0
    current_stage := stage_of current_date s
    risk_level := (risk_of current_date s).1
    risk_factors := (risk_of current_date s).2
    recommended_action :=
      get_recommended_action_advanced (risk_of current_date s).1
        (stage_of current_date s) }

/-- The at-risk list as built by the loop: each donor row yields an entry
when `include_at_risk` holds and
`risk_order[risk_level] >= risk_order[risk_threshold]`. -/
def at_risk_unsorted (current_date : Int) (include_at_risk : Bool)
    (risk_threshold : ChurnRisk) (stats : List DonorStat) :
    List DonorChurnRisk :=
  (stats.map (mk_churn_entry current_date)).filter fun e =>
    include_at_risk && decide (riskOrder risk_threshold ≤ riskOrder e.risk_level)

/-- The comparison the source's
`sort(key=(risk_order, lifetime_value), reverse=True)` realises between
adjacent entries: descending lexicographic order on
`(risk_order[risk_level], lifetime_value)`.  Relative order of entries
with equal keys is not modelled (any order satisfies the claims). -/
def roster_before (a b : DonorChurnRisk) : Prop :=
  riskOrder b.risk_level < riskOrder a.risk_level ∨
    (riskOrder a.risk_level = riskOrder b.risk_level ∧
      b.lifetime_value ≤ a.lifetime_value)

instance : DecidableRel roster_before := fun a b => by
  unfold roster_before; infer_instance

instance : IsTotal DonorChurnRisk roster_before := by
  constructor
  intro a b
  unfold roster_before
  rcases lt_trichotomy (riskOrder a.risk_level) (riskOrder b.risk_level) with h | h | h
  · exact Or.inr (Or.inl h)
  · rcases le_total a.lifetime_value b.lifetime_value with h2 | h2
    · exact Or.inr (Or.inr ⟨h.symm, h2⟩)
    · exact Or.inl (Or.inr ⟨h, h2⟩)
  · exact Or.inl (Or.inl h)

instance : IsTrans DonorChurnRisk roster_before := by
  constructor
  intro a b c hab hbc
  unfold roster_before at *
  rcases hab with h1 | ⟨h1, h1q⟩ <;> rcases hbc with h2 | ⟨h2, h2q⟩
  · exact Or.inl (lt_trans h2 h1)
  · exact Or.inl (by omega)
  · exact Or.inl (by omega)
  · exact Or.inr ⟨by omega, le_trans h2q h1q⟩

/-- The sorted at-risk list (`at_risk_donors.sort(...)` in the source). -/
def at_risk_sorted (current_date : Int) (include_at_risk : Bool)
    (risk_threshold : ChurnRisk) (stats : List DonorStat) :
    List DonorChurnRisk :=
  List.insertionSort roster_before
    (at_risk_unsorted current_date include_at_risk risk_threshold stats)

/-- All six lifecycle stages in the enum's declaration order, as iterated
by `for stage in LifecycleStageEnum`. -/
def allStages : List LifecycleStageEnum :=
  [.prospect, .first_time, .repeat_, .major, .lapsed, .lost]

/-- The donors collected under one stage key of `donors_by_stage`. -/
def stage_group (current_date : Int) (stats : List DonorStat)
    (stage : LifecycleStageEnum) : List DonorStat :=
  stats.filter fun s => decide (stage_of current_date s = stage)

/-- Python's `round(x, ndigits)` on the exact rational value: round half
to even at the integer step. -/
def pyRound (q : ℚ) : Int :=
  if Int.fract q = 1 / 2 then
    (if ⌊q⌋ % 2 = 0 then ⌊q⌋ else ⌊q⌋ + 1)
  else round q

/-- `round(x, 1)` on the exact rational value. -/
def pyRound1 (q : ℚ) : ℚ := (pyRound (q * 10) : ℚ) / 10

/-- `round(x, 2)` on the exact rational value. -/
def pyRound2 (q : ℚ) : ℚ := (pyRound (q * 100) : ℚ) / 100

/-- One `DonorLifecycleStageDetailed` record (the `conversion_rate` and
`churn_rate` fields, always `None` in the source, are omitted). -/
structure DonorLifecycleStageDetailed where
  stage : LifecycleStageEnum
  donor_count : Nat
  avg_days_in_stage : ℚ
  avg_lifetime_value : ℚ
deriving DecidableEq, Repr

/-- The per-stage metrics loop: counts and rounded means over each
stage's donors (0 for empty stages). -/
def lifecycle_stages_of (current_date : Int) (stats : List DonorStat) :
    List DonorLifecycleStageDetailed :=
  allStages.map fun stage =>
    let donors_in_stage := stage_group current_date stats stage
    let avg_ltv : ℚ :=
      if donors_in_stage ≠ [] then
        (donors_in_stage.map fun d => d.lifetime_value.getD 0).sum /
          (donors_in_stage.length : ℚ)
      else 0
    let avg_days : ℚ :=
      if donors_in_stage ≠ [] then
        ((donors_in_stage.map fun d =>
          days_since_last_of current_date d).sum : ℚ) /
          (donors_in_stage.length : ℚ)
      else 0
    { stage := stage
      donor_count := donors_in_stage.length
      avg_days_in_stage := pyRound1 avg_days
      avg_lifetime_value := pyRound2 avg_ltv }

/-- One `CohortAnalysis` record; `cohort_period` is the year (a string
`f"{year}"` in the source) and the hard-coded zero placeholder fields
(`retained_month_*`, `retention_rate_12m`, `avg_cohort_value`) are
omitted. -/
structure CohortAnalysis where
  cohort_period : Int
  initial_count : Nat
deriving DecidableEq, Repr

/-- The simplified cohort loop: for each `year` in
`range(current_year - 2, current_year + 1)` the source counts the
distinct donors having at least one donation whose `received_date` falls
in that year (`extract('year', ...) == year`, grouped by party), and
appends a bucket only when that count is positive.  `donor_years` gives,
per donor, the list of years of that donor's donations. -/
def cohort_analysis_of (donor_years : List (List Int)) (current_year : Int) :
    List CohortAnalysis :=
  [current_year - 2, current_year - 1, current_year].filterMap fun year =>
    let initial_count := (donor_years.filter fun ys => decide (year ∈ ys)).length
    if 0 < initial_count then
      some { cohort_period := year, initial_count := initial_count }
    else
      none

/-- The `summary_metrics` dict (retention rate as an exact rational). -/
structure SummaryMetrics where
  total_donors : Nat
  active_donors : Nat
  at_risk_count : Nat
  critical_risk_count : Nat
  major_donors : Nat
  lapsed_donors : Nat
  lost_donors : Nat
  retention_rate : ℚ
deriving DecidableEq, Repr

/-- The summary computation: totals over the stage groups, counts over
the (untruncated) at-risk list, and
`round(active / total * 100, 1) if total > 0 else 0`. -/
def summary_metrics_of (current_date : Int) (include_at_risk : Bool)
    (risk_threshold : ChurnRisk) (stats : List DonorStat) : SummaryMetrics :=
  let at_risk := at_risk_sorted current_date include_at_risk risk_threshold stats
  let total_donors :=
    (allStages.map fun stage => (stage_group current_date stats stage).length).sum
  let active_donors := (stage_group current_date stats .repeat_).length +
    (stage_group current_date stats .major).length
  { total_donors := total_donors
    active_donors := active_donors
    at_risk_count := at_risk.length
    critical_risk_count :=
      (at_risk.filter fun d => decide (d.risk_level = ChurnRisk.critical)).length
    major_donors := (stage_group current_date stats .major).length
    lapsed_donors := (stage_group current_date stats .lapsed).length
    lost_donors := (stage_group current_date stats .lost).length
    retention_rate :=
      if total_donors > 0 then
        pyRound1 ((active_donors : ℚ) / (total_donors : ℚ) * 100)
      else 0 }

/-- The `LifecycleAnalyticsResponse` produced at the end of
`get_donor_lifecycle_analytics` (`organization_id` omitted). -/
structure LifecycleAnalyticsResponse where
  snapshot_date : Int
  lifecycle_stages : List DonorLifecycleStageDetailed
  cohort_analysis : List CohortAnalysis
  at_risk_donors : List DonorChurnRisk
  summary_metrics : SummaryMetrics
deriving DecidableEq, Repr

/-- Embedding of the pure computational core of
`get_donor_lifecycle_analytics`: `current_date` is the evaluation
instant's day number and `current_year` its calendar year; `stats` is the
result of the `donor_stats` query and `donor_years` of the cohort query;
`at_risk_donors` is the sorted at-risk list truncated to 100 entries. -/
def get_donor_lifecycle_analytics (current_date : Int) (current_year : Int)
    (include_at_risk : Bool) (risk_threshold : ChurnRisk)
    (stats : List DonorStat) (donor_years : List (List Int)) :
    LifecycleAnalyticsResponse :=
  { snapshot_date := current_date
    lifecycle_stages := lifecycle_stages_of current_date stats
    cohort_analysis := cohort_analysis_of donor_years current_year
    at_risk_donors :=
      (at_risk_sorted current_date include_at_risk risk_threshold stats).take 100
    summary_metrics :=
      summary_metrics_of current_date include_at_risk risk_threshold stats }

/-- C5: in every report, the at-risk roster is sorted so that each
adjacent pair (i, i+1) is non-increasing in risk tier under the ordinal
order low < medium < high < critical, and non-increasing in lifetime
value when the tiers are equal. -/
theorem at_risk_roster_sorted (current_date current_year : Int)
    (include_at_risk : Bool) (risk_threshold : ChurnRisk)
    (stats : List DonorStat) (donor_years : List (List Int)) :
    List.Chain'
      (fun a b => riskOrder b.risk_level ≤ riskOrder a.risk_level ∧
        (riskOrder a.risk_level = riskOrder b.risk_level →
          b.lifetime_value ≤ a.lifetime_value))
      (get_donor_lifecycle_analytics current_date current_year
        include_at_risk risk_threshold stats donor_years).at_risk_donors := by
  simp only [get_donor_lifecycle_analytics, at_risk_sorted]
  refine List.Pairwise.chain' ?_
  refine List.Pairwise.sublist (List.take_sublist 100 _) ?_
  refine (List.sorted_insertionSort roster_before _).imp ?_
  intro a b h
  rcases h with h | ⟨h1, h2⟩
  · exact ⟨le_of_lt h, fun heq => absurd h (by omega)⟩
  · exact ⟨le_of_eq h1.symm, fun _ => h2⟩

/-- C6: the at-risk roster never exceeds 100 entries, and when fewer than
100 donors qualify (risk tier at or above the threshold), every
qualifying donor's entry appears in the roster — truncation to 100
happens after sorting and cannot drop a qualifying entry in that case. -/
theorem at_risk_roster_cap (current_date current_year : Int)
    (include_at_risk : Bool) (risk_threshold : ChurnRisk)
    (stats : List DonorStat) (donor_years : List (List Int)) :
    (get_donor_lifecycle_analytics current_date current_year
      include_at_risk risk_threshold stats donor_years).at_risk_donors.length ≤
        100 ∧
    ((at_risk_unsorted current_date include_at_risk risk_threshold
        stats).length < 100 →
      ∀ e ∈ at_risk_unsorted current_date include_at_risk risk_threshold stats,
        e ∈ (get_donor_lifecycle_analytics current_date current_year
          include_at_risk risk_threshold stats donor_years).at_risk_donors) := by
  constructor
  · simp only [get_donor_lifecycle_analytics, List.length_take]
    omega
  · intro h e he
    simp only [get_donor_lifecycle_analytics, at_risk_sorted]
    have hlen : (List.insertionSort roster_before
        (at_risk_unsorted current_date include_at_risk risk_threshold
          stats)).length =
        (at_risk_unsorted current_date include_at_risk risk_threshold
          stats).length :=
      (List.perm_insertionSort roster_before _).length_eq
    rw [List.take_of_length_le (by omega)]
    exact ((List.perm_insertionSort roster_before _).mem_iff).2 he

/-- Donor list with a single never-donated donor, used as concrete input
for the roster-cap witness. -/
def oneProspectStats : List DonorStat :=
  [{ donor_id := 1, donation_count := 0, last_donation_date := none,
     lifetime_value := none, first_donation_date := none }]

/-- Witness for C6 at a concrete input: one qualifying donor, fewer than
100 qualifiers, and their entry is in the roster. -/
theorem at_risk_roster_cap_witness :
    (at_risk_unsorted 1000 true ChurnRisk.medium oneProspectStats).length <
        100 ∧
      mk_churn_entry 1000
          { donor_id := 1, donation_count := 0, last_donation_date := none,
            lifetime_value := none, first_donation_date := none } ∈
        (get_donor_lifecycle_analytics 1000 2024 true ChurnRisk.medium
          oneProspectStats []).at_risk_donors :=
  ⟨by decide,
    (at_risk_roster_cap 1000 2024 true ChurnRisk.medium oneProspectStats
      []).2 (by decide) _ (by decide)⟩

/-- C7 as stated is false: with one donor who donated in both 2023 and
2024, evaluated with current year 2024, the cohort loop produces a bucket
for each of the two years with `initial_count = 1` — the single donor
contributes to two buckets, and the 2024 bucket counts a donor whose
first donation year is 2023, not 2024 (no donor's first donation falls in
2024). -/
theorem cohort_buckets_count_activity_not_first_year :
    cohort_analysis_of [[2023, 2024]] 2024 =
        [{ cohort_period := 2023, initial_count := 1 },
         { cohort_period := 2024, initial_count := 1 }] ∧
      (([[2023, 2024]] : List (List Int)).filter fun ys =>
        decide (ys.min? = some 2024)).length = 0 ∧
      ([[2023, 2024]] : List (List Int)).length < 1 + 1 := by
  refine ⟨by decide, by decide, by decide⟩

/-- C7 (amended): a bucket appears in the cohort analysis exactly for the
years of the 3-year lookback window (current year and the two before) in
which at least one donor made a donation, and its `initial_count` is the
number of donors with at least one donation in that year — donors are
bucketed by activity year, not by first-donation year, and one donor may
appear in several buckets. -/
theorem cohort_buckets_amended (donor_years : List (List Int))
    (current_year : Int) (b : CohortAnalysis) :
    b ∈ cohort_analysis_of donor_years current_year ↔
      (b.cohort_period ∈ [current_year - 2, current_year - 1, current_year] ∧
        b.initial_count =
          (donor_years.filter fun ys => decide (b.cohort_period ∈ ys)).length ∧
        0 < b.initial_count) := by
  simp only [cohort_analysis_of, List.mem_filterMap]
  constructor
  · rintro ⟨year, hy, hf⟩
    by_cases hc :
        0 < (donor_years.filter fun ys => decide (year ∈ ys)).length
    · rw [if_pos hc] at hf
      cases Option.some.inj hf
      exact ⟨hy, rfl, hc⟩
    · rw [if_neg hc] at hf
      exact absurd hf (by simp)
  · rintro ⟨h1, h2, h3⟩
    refine ⟨b.cohort_period, h1, ?_⟩
    rw [if_pos (h2 ▸ h3)]
    rw [← h2]

theorem length_sum_stage_group (current_date : Int) (stats : List DonorStat) :
    ((allStages.map fun stage =>
      (stage_group current_date stats stage).length).sum) = stats.length := by
  induction stats with
  | nil => rfl
  | cons s t ih =>
    simp only [stage_group, allStages, List.map, List.sum_cons,
      List.sum_nil] at ih
    simp only [stage_group, allStages, List.map, List.filter_cons,
      List.sum_cons, List.sum_nil, List.length_cons]
    cases hst : stage_of current_date s <;> simp [hst] <;> omega

/-- C8 (amended): in every report, `total_donors` is the number of input
donors, `active_donors` is the `repeat` stage count plus the `major`
stage count, and `retention_rate` equals `active_donors / total_donors`
expressed as a percentage rounded to one decimal
(`round(active / total * 100, 1)`), with `retention_rate = 0` when
`total_donors = 0` (no division by zero). -/
theorem retention_rate_amended (current_date current_year : Int)
    (include_at_risk : Bool) (risk_threshold : ChurnRisk)
    (stats : List DonorStat) (donor_years : List (List Int)) :
    (get_donor_lifecycle_analytics current_date current_year include_at_risk
        risk_threshold stats donor_years).summary_metrics.total_donors =
      stats.length ∧
    (get_donor_lifecycle_analytics current_date current_year include_at_risk
        risk_threshold stats donor_years).summary_metrics.active_donors =
      (stats.filter fun s =>
        decide (stage_of current_date s = .repeat_)).length +
      (stats.filter fun s => decide (stage_of current_date s = .major)).length ∧
    (get_donor_lifecycle_analytics current_date current_year include_at_risk
        risk_threshold stats donor_years).summary_metrics.retention_rate =
      (if stats.length = 0 then 0 else
        pyRound1
          ((((stats.filter fun s =>
                decide (stage_of current_date s = .repeat_)).length +
              (stats.filter fun s =>
                decide (stage_of current_date s = .major)).length : ℕ) : ℚ) /
            (stats.length : ℚ) * 100)) := by
  have htot := length_sum_stage_group current_date stats
  simp only [get_donor_lifecycle_analytics, summary_metrics_of]
  refine ⟨htot, ?_, ?_⟩
  · simp only [stage_group]
  · rw [htot]
    rcases Nat.eq_zero_or_pos stats.length with h | h
    · simp [h]
    · rw [if_pos h, if_neg (by omega)]
      simp only [stage_group]

/-- Donor list with one `repeat`-stage donor and one `lost`-stage donor,
used as concrete input for the retention-rate counterexample. -/
def repeatAndLostStats : List DonorStat :=
  [{ donor_id := 1, donation_count := 2, last_donation_date := some 900,
     lifetime_value := some 100, first_donation_date := some 800 },
   { donor_id := 2, donation_count := 2, last_donation_date := some 100,
     lifetime_value := some 100, first_donation_date := some 50 }]

/-- C8 as stated is false: with one active donor out of two,
`retention_rate` is `50` (a percentage rounded to one decimal), not the
quotient `active_donors / total_donors = 1 / 2`. -/
theorem retention_rate_not_a_plain_ratio :
    (get_donor_lifecycle_analytics 1000 2024 true ChurnRisk.medium
        repeatAndLostStats []).summary_metrics.active_donors = 1 ∧
    (get_donor_lifecycle_analytics 1000 2024 true ChurnRisk.medium
        repeatAndLostStats []).summary_metrics.total_donors = 2 ∧
    (get_donor_lifecycle_analytics 1000 2024 true ChurnRisk.medium
        repeatAndLostStats []).summary_metrics.retention_rate = 50 ∧
    (50 : ℚ) ≠ 1 / 2 := by
  refine ⟨by decide, by decide, ?_, by norm_num⟩
  have htot : (allStages.map fun stage =>
      (stage_group 1000 repeatAndLostStats stage).length).sum = 2 := by decide
  have hact : (stage_group 1000 repeatAndLostStats .repeat_).length +
      (stage_group 1000 repeatAndLostStats .major).length = 1 := by decide
  simp only [get_donor_lifecycle_analytics, summary_metrics_of]
  rw [htot, hact]
  norm_num [pyRound1, pyRound, Int.fract, round_eq]
